import Mathlib

/-!
A shallow embedding of the connection/request-lifecycle core of
`src/sketchup_mcp/server.py` (class `SketchupConnection` with
`receive_full_response` and `send_command`, plus the tool functions),
together with theorems settling the frozen claims about it.

Modelling conventions:
* JSON values are modelled by the inductive `Json`; numbers are rationals
  (exact stand-ins for the small decimal literals in the source).
* Wall-clock durations and timeouts are in tenths of a second (deciseconds),
  so the 120.0 s default operation timeout is 1200, the 0.5 s backoff is 5.
* The peer and the socket are modelled by explicit scripts: a list of events
  (bytes chunks / timeouts / connection errors / parsed responses), one event
  per blocking socket call, each with the wall-clock duration that call took.
* Python's UTF-8 decoding and `json.loads` are external library calls; the
  framing routine is parameterised by two boolean oracles (`utf8Ok`,
  `jsonOk`) standing for "the bytes decode as UTF-8" and "the decoded text
  parses as one complete JSON document".
* Exceptions are modelled by explicit error results carrying the exception
  message string, since `send_command` dispatches on exception class and on
  the message substring "Connection closed".
-/

/-- A single-quote character, used to build the error-message strings of the
source (which quote identifiers) without writing a quote character in a
string literal. -/
def quo : String := String.mk [Char.ofNat 39]

/-- JSON values (Python objects produced by `json.loads`). Object fields keep
insertion order, as Python dicts do. -/
inductive Json where
  | null
  | bool (b : Bool)
  | num (q : ℚ)
  | str (s : String)
  | arr (elems : List Json)
  | obj (fields : List (String × Json))

mutual

/-- Python `==` on parsed JSON values: structural equality. -/
def Json.pyEq : Json → Json → Bool
  | .null, .null => true
  | .bool a, .bool b => a = b
  | .num a, .num b => a = b
  | .str a, .str b => a = b
  | .arr as, .arr bs => Json.pyEqArr as bs
  | .obj as, .obj bs => Json.pyEqObj as bs
  | _, _ => false

/-- Elementwise `Json.pyEq` on lists. -/
def Json.pyEqArr : List Json → List Json → Bool
  | [], [] => true
  | a :: as, b :: bs => Json.pyEq a b && Json.pyEqArr as bs
  | _, _ => false

/-- Elementwise `Json.pyEq` on object field lists. -/
def Json.pyEqObj : List (String × Json) → List (String × Json) → Bool
  | [], [] => true
  | (k1, v1) :: as, (k2, v2) :: bs => k1 = k2 && Json.pyEq v1 v2 && Json.pyEqObj as bs
  | _, _ => false

end

mutual

theorem Json.pyEq_refl : ∀ j : Json, Json.pyEq j j = true
  | .null => rfl
  | .bool b => by simp [Json.pyEq]
  | .num q => by simp [Json.pyEq]
  | .str s => by simp [Json.pyEq]
  | .arr as => by simp [Json.pyEq, Json.pyEqArr_refl as]
  | .obj as => by simp [Json.pyEq, Json.pyEqObj_refl as]

theorem Json.pyEqArr_refl : ∀ l : List Json, Json.pyEqArr l l = true
  | [] => rfl
  | a :: as => by simp [Json.pyEqArr, Json.pyEq_refl a, Json.pyEqArr_refl as]

theorem Json.pyEqObj_refl : ∀ l : List (String × Json), Json.pyEqObj l l = true
  | [] => rfl
  | (k, v) :: as => by simp [Json.pyEqObj, Json.pyEq_refl v, Json.pyEqObj_refl as]

end

/-- First-match association lookup on object fields (Python dict keys are
unique, so first match is the only match). -/
def jlookup : List (String × Json) → String → Option Json
  | [], _ => none
  | (k, v) :: t, key => if k = key then some v else jlookup t key

/-- Indexing `j[k]` for an object, `none` otherwise (Python raises on non-dicts; every
value the source indexes is a dict on the executed paths). -/
def Json.get? : Json → String → Option Json
  | .obj l, k => jlookup l k
  | _, _ => none

/-- Python's `d.get(k, default)`. -/
def Json.getD (j : Json) (k : String) (d : Json) : Json := (j.get? k).getD d

/-- Python's `k in d`. -/
def Json.hasKey (j : Json) (k : String) : Bool := (j.get? k).isSome

/-- Python truthiness of the values appearing in responses. -/
def jsonTruthy : Json → Bool
  | .null => false
  | .bool b => b
  | .num q => q ≠ 0
  | .str s => s ≠ ""
  | .arr l => !l.isEmpty
  | .obj l => !l.isEmpty

/-- Rendering of a rational for interpolated messages (only the shape
matters to the claims; no claim depends on number formatting). -/
def ratStr (q : ℚ) : String :=
  if q.den = 1 then toString q.num else toString q.num ++ "/" ++ toString q.den

/-- Python `str()` of a response fragment, used where the source interpolates
a possibly-non-string JSON value into an f-string. Exact only on strings,
booleans, null and integers, which is all the claims exercise. -/
def pyStr : Json → String
  | .null => "None"
  | .bool true => "True"
  | .bool false => "False"
  | .num q => ratStr q
  | .str s => s
  | .arr _ => "[...]"
  | .obj _ => "\x7b...\x7d"

/-- Does `pat` occur at the start of `hay`? (helper for the substring test) -/
def startsWithL : List Char → List Char → Bool
  | _, [] => true
  | [], _ :: _ => false
  | a :: as, b :: bs => a = b && startsWithL as bs

/-- Does `pat` occur anywhere inside `hay`? (helper for the substring test) -/
def containsSubL : List Char → List Char → Bool
  | [], pat => startsWithL [] pat
  | hay@(_ :: t), pat => startsWithL hay pat || containsSubL t pat

/-- Python's `pat in s` substring test, used by `send_command`'s generic
exception handler (`"Connection closed" in str(e)`). -/
def strContainsSub (s pat : String) : Bool := containsSubL s.toList pat.toList

example : strContainsSub "xx Connection closed yy" "Connection closed" = true := by decide
example : strContainsSub "boom" "Connection closed" = false := by decide

/-! ## Transport session: `SketchupConnection.receive_full_response`

The routine reads chunks off the socket and, after every chunk, tries to
decode the concatenation as UTF-8 and parse it as one complete JSON
document, returning the raw bytes on the first success.  A socket timeout
with buffered data triggers a best-effort parse and otherwise keeps
waiting; a socket timeout with no data breaks out; a connection error
triggers a best-effort parse and is otherwise re-raised; a 120 s
wall-clock ceiling bounds the whole message.  On exit without a parsed
document it falls through to a final best-effort parse (lines 85-176 of
`server.py`). -/

/-- One blocking `sock.recv` call's outcome.  `chunk []` is Python's empty
`recv` result, i.e. the peer closed the connection (`if not chunk`). -/
inductive SockEvent where
  | chunk (b : List Nat)
  | timeout
  | connError
deriving DecidableEq

/-- The distinct exceptions `receive_full_response` can raise.  The first
four are plain `Exception`s with a fixed message (see `RecvError.toOutcome`);
`connectionError` is the re-raised `ConnectionError` family; `starved` is a
model artifact for scripts that end before the routine does. -/
inductive RecvError where
  | connClosedNoData
  | noData
  | incompleteJson
  | invalidEncoding
  | connectionError (msg : String)
  | starved
deriving DecidableEq

/-- The final best-effort parse at lines 158-176: raises `No data received`
on an empty buffer, `Invalid response encoding` when the bytes never decode,
`Incomplete JSON response received` when they decode but never parse. -/
def finalParse (utf8Ok jsonOk : List Nat → Bool) (chunks : List (List Nat)) :
    Except RecvError (List Nat) :=
  if chunks.isEmpty then .error .noData
  else
    let data := chunks.flatten
    if !utf8Ok data then .error .invalidEncoding
    else if !jsonOk data then .error .incompleteJson
    else .ok data

/-- The chunked receive loop of `receive_full_response`, with the 120 s
(1200 ds) wall-clock ceiling.  `chunks` is the buffered-chunk list and
`elapsed` the wall-clock time consumed so far; each event carries the
duration the corresponding `recv` call took. -/
def receive_full_response (utf8Ok jsonOk : List Nat → Bool) :
    List (Nat × SockEvent) → List (List Nat) → Nat → Except RecvError (List Nat)
  | [], chunks, elapsed =>
    if 1200 ≤ elapsed then finalParse utf8Ok jsonOk chunks else .error .starved
  | (d, ev) :: rest, chunks, elapsed =>
    if 1200 ≤ elapsed then finalParse utf8Ok jsonOk chunks
    else
      match ev with
      | .chunk b =>
        if b.isEmpty then
          -- `if not chunk`: closed before any data raises, otherwise break
          -- out to the final parse
          if chunks.isEmpty then .error .connClosedNoData
          else finalParse utf8Ok jsonOk chunks
        else
          let chunks1 := chunks ++ [b]
          let data := chunks1.flatten
          if utf8Ok data && jsonOk data then .ok data
          else receive_full_response utf8Ok jsonOk rest chunks1 (elapsed + d)
      | .timeout =>
        -- socket timeout: best-effort parse with data, break without data
        if chunks.isEmpty then .error .noData
        else
          let data := chunks.flatten
          if utf8Ok data && jsonOk data then .ok data
          else receive_full_response utf8Ok jsonOk rest chunks (elapsed + d)
      | .connError =>
        -- hard connection error: best-effort parse, then re-raise
        if !chunks.isEmpty && utf8Ok chunks.flatten && jsonOk chunks.flatten then
          .ok chunks.flatten
        else .error (.connectionError "connection error")

/-! Concrete oracles used in counterexamples and witnesses.  They agree with
Python's UTF-8 decoder and `json.loads` on every byte string they are
applied to below. -/

/-- Bytes that are plain ASCII (always valid UTF-8). -/
def asciiBytes (l : List Nat) : Bool := l.all (fun c => c ≤ 127)

/-- Is `c` an ASCII decimal digit? -/
def isDigitByte (c : Nat) : Bool := 48 ≤ c && c ≤ 57

/-- Oracle for `json.loads` acceptance on digit-only byte strings: a nonempty digit run
with no leading zero (a JSON unsigned integer).  `json.loads` accepts
exactly these among all-digit strings. -/
def jsonUIntBytes : List Nat → Bool
  | [] => false
  | [c] => isDigitByte c
  | c :: rest => isDigitByte c && c ≠ 48 && rest.all isDigitByte

/-- Oracle for `json.loads` acceptance restricted to byte strings over brackets only:
exactly the empty array document. -/
def jsonEmptyArrBytes (l : List Nat) : Bool := l = [91, 93]

example : receive_full_response asciiBytes jsonUIntBytes [(0, .chunk [49, 50])] [] 0
    = .ok [49, 50] := by rfl

example : receive_full_response asciiBytes jsonUIntBytes
    [(0, .chunk [49]), (0, .chunk [50])] [] 0 = .ok [49] := by rfl

/-! ## Request/response engine: `SketchupConnection.send_command`

`send_command(method, params, request_id)` (lines 178-338): connect, build a
JSON-RPC envelope, pick a per-operation timeout, then run the outer retry
loop (up to `max_retries = 3` retries, 4 attempts) around an inner receive
loop bounded by the operation timeout. -/

/-- The JSON-RPC request envelope (lines 185-209). -/
structure Request where
  jsonrpc : String
  method : String
  params : Json
  id : Json

/-- Python truthiness of the optional `params` argument (`None` or a dict). -/
def optTruthy : Option Json → Bool
  | none => false
  | some j => jsonTruthy j

/-- Does the optional `params` dict contain key `k`? (short-circuited after
the truthiness test in the source, so `none` simply yields `false`). -/
def optHasKey (p : Option Json) (k : String) : Bool :=
  match p with
  | none => false
  | some j => j.hasKey k

/-- Envelope construction (lines 184-209): a `tools/call` request with
`name` and `arguments` passes through; anything else is wrapped as a
`tools/call` of the given method name. -/
def buildRequest (method : String) (params : Option Json) (request_id : Json) : Request :=
  if method = "tools/call" && optTruthy params && optHasKey params "name"
      && optHasKey params "arguments" then
    ⟨"2.0", method, params.getD (.obj []), request_id⟩
  else
    ⟨"2.0", "tools/call",
      .obj [("name", .str method), ("arguments", params.getD (.obj []))], request_id⟩

/-- Python `value == "lit"` where `value` came out of a dict lookup (so it
may be any JSON value or absent/None). -/
def isStrVal (j : Json) (s : String) : Bool :=
  match j with
  | .str t => t = s
  | _ => false

/-- The static operation-timeout table (lines 211-220), in deciseconds:
default 1200 (120 s); `create_component` 600 (60 s); the four joinery or
boolean operations 1800 (180 s); `eval_ruby` 3000 (300 s). The table is
consulted only for `tools/call` invocations with truthy params. -/
def operationTimeout (method : String) (params : Option Json) : Nat :=
  if method = "tools/call" && optTruthy params then
    let tn := (params.getD (.obj [])).getD "name" .null
    if isStrVal tn "create_component" then 600
    else if isStrVal tn "boolean_operation" || isStrVal tn "create_dovetail"
        || isStrVal tn "create_mortise_tenon" || isStrVal tn "create_finger_joint" then 1800
    else if isStrVal tn "eval_ruby" then 3000
    else 1200
  else 1200

theorem operationTimeout_pos (method : String) (params : Option Json) :
    0 < operationTimeout method params := by
  unfold operationTimeout
  dsimp only
  split_ifs <;> norm_num

/-- Line 289: the special impatience flag for `create_component`
(`method == "tools/call" and params and params.get("name") == "create_component"`). -/
def isCreateComponentCall (method : String) (params : Option Json) : Bool :=
  method = "tools/call" && optTruthy params
    && isStrVal ((params.getD (.obj [])).getD "name" .null) "create_component"

/-- The message of the `Exception` raised for a peer `error` response
(line 258): `response["error"].get("message", "Unknown error from Sketchup")`. -/
def errMsg (e : Json) : String :=
  match e.get? "message" with
  | some v => pyStr v
  | none => "Unknown error from Sketchup"

/-- Rendering of the interpolated timeout, a Python float with one
decimal digit in the source. -/
def secondsStr (ds : Nat) : String := toString (ds / 10) ++ "." ++ toString (ds % 10)

/-- The inner-loop timeout exception messages (lines 299-302). -/
def timeoutMsg (opId : Json) (opT : Nat) : String :=
  if jsonTruthy opId then
    "Operation " ++ pyStr opId ++ " timed out after " ++ secondsStr opT ++ " seconds"
  else
    "No response received within " ++ secondsStr opT ++ " seconds"

/-- Per-response classification inside the inner loop (lines 255-284). -/
inductive StepRes where
  | raiseExc (msg : String)
  | retSuccess (payload : Json)
  | continueWait (upd : Option Json)

/-- The response-shape dispatch of the inner loop (lines 255-284): a peer
`error` raises; an `operation/status` notification raises on `failed`,
returns the embedded result on `completed` and keeps waiting otherwise
(recording the notification's `operation_id`, even when absent); a `result`
whose `id` equals the call's correlation id returns; anything else is
logged and ignored. -/
def classifyResponse (request_id : Json) (j : Json) : StepRes :=
  if j.hasKey "error" then
    .raiseExc (errMsg (j.getD "error" .null))
  else if isStrVal (j.getD "method" .null) "operation/status" then
    let ps := j.getD "params" (.obj [])
    let st := ps.getD "status" .null
    if isStrVal st "failed" then
      .raiseExc ("Operation failed: " ++ pyStr (ps.getD "message" (.str "")))
    else if isStrVal st "completed" then
      .retSuccess (ps.getD "result" (.obj []))
    else
      .continueWait (some (ps.getD "operation_id" .null))
  else if j.hasKey "result" && Json.pyEq (j.getD "id" .null) request_id then
    .retSuccess (j.getD "result" (.obj []))
  else
    .continueWait none

/-- One outcome of a blocking receive inside `send_command`'s inner loop:
either parsed response data, or one of the exception classes the loop
dispatches on. -/
inductive RecvOutcome where
  | data (j : Json)
  | sockTimeout
  | jsonError
  | connError (msg : String)
  | exc (msg : String)

/-- How `receive_full_response`'s exceptions surface inside `send_command`:
the four framing failures are plain `Exception`s with these exact messages
(lines 100, 170, 173, 176); the `ConnectionError` family is re-raised
unchanged. -/
def RecvError.toOutcome : RecvError → RecvOutcome
  | .connClosedNoData => .exc "Connection closed before receiving any data"
  | .noData => .exc "No data received"
  | .incompleteJson => .exc "Incomplete JSON response received"
  | .invalidEncoding => .exc "Invalid response encoding"
  | .connectionError m => .connError m
  | .starved => .exc "model starved"

/-- Result of one attempt's inner receive loop. -/
inductive InnerResult where
  | success (payload : Json)
  | transport (msg : String)
  | exc (msg : String)
  | starved

/-- The inner receive loop (lines 243-302), bounded by the operation
timeout: receive, classify, keep waiting on interim statuses and socket
timeouts (with the 30 s early break for `create_component`), propagate
exceptions, raise the timeout exception when the budget is exhausted.
`cc` is `isCreateComponentCall`; `opId` is the `operation_id` state
(Python `None` modelled as `.null` via the notification's `.get`). -/
def innerLoop (cc : Bool) (request_id : Json) (opT : Nat) :
    List (Nat × RecvOutcome) → Nat → Json → InnerResult
  | [], elapsed, opId =>
    if opT ≤ elapsed then .exc (timeoutMsg opId opT) else .starved
  | (d, o) :: rest, elapsed, opId =>
    if opT ≤ elapsed then .exc (timeoutMsg opId opT)
    else
      match o with
      | .data j =>
        match classifyResponse request_id j with
        | .raiseExc m => .exc m
        | .retSuccess p => .success p
        | .continueWait upd => innerLoop cc request_id opT rest (elapsed + d) (upd.getD opId)
      | .sockTimeout =>
        -- lines 286-293: for create_component, break once 30 s have passed
        if cc && decide (300 < elapsed + d) then .exc (timeoutMsg opId opT)
        else innerLoop cc request_id opT rest (elapsed + d) opId
      | .jsonError => innerLoop cc request_id opT rest (elapsed + d) opId
      | .connError m => .transport m
      | .exc m => .exc m

/-- Observable actions of one `send_command` call, for stating retry and
backoff properties: requests written to the socket, `disconnect()` calls,
`time.sleep` durations (deciseconds), and `connect()` outcomes. -/
inductive CallAction where
  | sent (r : Request)
  | disconnected
  | slept (ds : Nat)
  | reconnected (ok : Bool)

/-- Script for one attempt of the outer loop: what `sendall` does, then the
sequence of receive outcomes for the inner loop. -/
structure AttemptScript where
  send : Option String        -- `none`: sendall succeeds; `some m`: raises a
                              -- transport-family exception with message `m`
  events : List (Nat × RecvOutcome)

/-- Terminal outcomes of `send_command`. -/
inductive CallOutcome where
  | success (payload : Json)
  | notConnected
  | transportExhausted (msg : String)
  | commError (msg : String)
  | starved

/-- The `AttributeError` message when an attempt starts with `self.sock`
set to `None` after a failed reconnect (line 235 dereferences it). -/
def noSockMsg : String :=
  quo ++ "NoneType" ++ quo ++ " object has no attribute " ++ quo ++ "settimeout" ++ quo

/-- The outer retry loop of `send_command` (lines 226-338).  State: the
remaining attempt scripts, the retry counter `rc`, the pending `connect()`
outcomes, whether the socket is usable, and the action trace so far.
A transport-family failure (socket timeout / connection reset / broken
pipe) is retried up to 3 times with disconnect and progressive backoff
`min(retry_count * 0.5 s, 2.0 s)`; any other exception is terminal unless
its message contains "Connection closed" and retries remain, in which case
the generic handler reconnects after a fixed 0.5 s sleep. -/
def sendLoop (cc : Bool) (rid : Json) (req : Request) (opT : Nat) :
    List AttemptScript → Nat → List Bool → Bool → List CallAction → CallOutcome × List CallAction
  | [], _, _, _, tr => (.starved, tr)
  | a :: rest, rc, recon, connected, tr =>
    let step : InnerResult × List CallAction :=
      if connected then
        match a.send with
        | some m => (.transport m, tr)
        | none => (innerLoop cc rid opT a.events 0 .null, tr ++ [.sent req])
      else (.exc noSockMsg, tr)
    match step with
    | (.success p, tr1) => (.success p, tr1)
    | (.starved, tr1) => (.starved, tr1)
    | (.transport m, tr1) =>
      -- lines 304-318
      if rc + 1 ≤ 3 then
        match recon with
        | [] => (.starved, tr1 ++ [.disconnected, .slept (min ((rc + 1) * 5) 20)])
        | c :: rs =>
          sendLoop cc rid req opT rest (rc + 1) rs c
            (tr1 ++ [.disconnected, .slept (min ((rc + 1) * 5) 20), .reconnected c])
      else
        (.transportExhausted ("Connection to Sketchup lost after 4 attempts: " ++ m), tr1)
    | (.exc m, tr1) =>
      -- lines 326-338
      if strContainsSub m "Connection closed" && decide (rc < 3) then
        match recon with
        | [] => (.starved, tr1 ++ [.disconnected, .slept 5])
        | c :: rs =>
          if c then
            sendLoop cc rid req opT rest (rc + 1) rs true
              (tr1 ++ [.disconnected, .slept 5, .reconnected c])
          else
            (.commError ("Communication error with Sketchup: " ++ m),
             tr1 ++ [.disconnected, .slept 5, .reconnected c])
      else
        (.commError ("Communication error with Sketchup: " ++ m), tr1)

/-- The external interactions of one `send_command` call: the initial
`connect()` outcome, one script per attempt, and the outcomes of the
reconnect `connect()` calls inside the handlers. -/
structure CallScript where
  initialConnect : Bool
  attempts : List AttemptScript
  reconnects : List Bool

/-- Entry point `send_command` (lines 178-338).  Raising `ConnectionError("Not connected
to Sketchup")` when the initial connect fails is `CallOutcome.notConnected`;
otherwise the envelope and timeout are fixed once and the retry loop runs. -/
def send_command (method : String) (params : Option Json) (request_id : Json)
    (s : CallScript) : CallOutcome × List CallAction :=
  if s.initialConnect then
    sendLoop (isCreateComponentCall method params) request_id
      (buildRequest method params request_id) (operationTimeout method params)
      s.attempts 0 s.reconnects true []
  else (.notConnected, [])

/-! ## Tool layer

Each `@mcp.tool()` function wraps its whole body in `try/except` and returns
a value in every case.  The value is either `json.dumps(...)` of a dict
(modelled `ToolValue.jsonVal`) or a bare f-string (modelled
`ToolValue.rawStr`), which is not a serialized JSON document. -/

/-- A tool function's returned value. -/
inductive ToolValue where
  | jsonVal (j : Json)
  | rawStr (s : String)

/-- Is the returned value a serialized JSON document? -/
def ToolValue.isJson : ToolValue → Bool
  | .jsonVal _ => true
  | .rawStr _ => false

/-- Outcome of a tool body's interaction with the connection layer:
`get_sketchup_connection()` raised, `send_command` raised, or `send_command`
returned a result dict. -/
inductive ToolCallOutcome where
  | connFailed (msg : String)
  | callRaised (msg : String)
  | ok (result : Json)

/-- A tool invocation's observable effect: the returned value plus the
`params` passed to `send_command` (`none` when no request was sent). -/
structure ToolResult where
  value : ToolValue
  sentParams : Option Json

/-- One iteration of the dimension-padding `while` loop (line 474):
`dimensions.append(dimensions[-1] if dimensions else 1.0)`. -/
def padStep (l : List ℚ) : List ℚ := l ++ [l.getLastD 1]

/-- The `while len(dimensions) < 3` padding loop (lines 473-474), unrolled
with fuel 3: each pass grows the list by one, so three passes always reach
length 3 from any shorter list, after which the guard stops the loop. -/
def padLoop : Nat → List ℚ → List ℚ
  | 0, l => l
  | fuel + 1, l => if l.length < 3 then padLoop fuel (padStep l) else l

/-- The `dimensions` list padded to length 3 as by the source's while loop. -/
def padTo3 (l : List ℚ) : List ℚ := padLoop 3 l

/-- Dimension validation and normalization in `create_component`
(lines 466-477): `None` becomes `[1,1,1]`; a 2-element list for a cylinder
becomes `[d, d, h]`; other short lists are padded by repeating the last
element (1.0 when empty); every element is then clamped by
`max(0.1, float(d))`. -/
def normalizeDimensions (ty : String) (dims : Option (List ℚ)) : List ℚ :=
  let base :=
    match dims with
    | none => [1, 1, 1]
    | some l =>
      match l, ty with
      | [a, b], "cylinder" => [a, a, b]
      | _, _ => if l.length < 3 then padTo3 l else l
  base.map (fun d => max (1 / 10 : ℚ) d)

/-- A list of rationals as a JSON array. -/
def jsonOfQList (l : List ℚ) : Json := .arr (l.map .num)

/-- Python `lst or [0, 0, 0]` for an optional position argument (an empty
list is falsy and also replaced). -/
def orDefaultPos : Option (List ℚ) → List ℚ
  | none => [0, 0, 0]
  | some [] => [0, 0, 0]
  | some l => l

/-- Python `repr` of a list of strings, as interpolated into the
`ValueError` messages of `create_component`. -/
def pyListRepr (l : List String) : String :=
  "[" ++ String.intercalate ", " (l.map (fun s => quo ++ s ++ quo)) ++ "]"

def valid_directions : List String :=
  ["up", "down", "forward", "back", "right", "left", "auto"]

def valid_origin_modes : List String :=
  ["center", "bottom_center", "top_center", "min_corner", "max_corner"]

/-- Python `float(x)` on a JSON value already known to be numeric, with 0 for the
`None`-guarded defaults of the bounds formatting code. -/
def qOf : Json → ℚ
  | .num q => q
  | _ => 0

/-- Two-decimal float formatting for the bounds dimensions message (a
formatting detail, load-bearing for no claim). -/
def fmt2 (q : ℚ) : String :=
  let c : ℤ := round (q * 100)
  let r := c.natAbs % 100
  (if c < 0 then "-" else "") ++ toString (c.natAbs / 100) ++ "."
    ++ toString (r / 10) ++ toString (r % 10)

/-- The success message assembled by `create_component` (lines 505-528). -/
def createComponentMessage (ty direction origin_mode : String) (result : Json) : String :=
  let verification := result.getD "verification" (.obj [])
  let compTypeInput := ty.capitalize
  let compTypeResult := verification.getD "type" (.str compTypeInput)
  let compTypeMsg :=
    match compTypeResult with
    | .str s => s.capitalize
    | _ => compTypeInput
  let bounds := verification.getD "bounds" (.obj [])
  let actualCenter := bounds.getD "center" (.str "N/A")
  let dimsStr :=
    if jsonTruthy bounds && bounds.hasKey "width" && bounds.hasKey "height"
        && bounds.hasKey "depth" then
      "[" ++ fmt2 (qOf (bounds.getD "width" (.num 0))) ++ ", "
        ++ fmt2 (qOf (bounds.getD "height" (.num 0))) ++ ", "
        ++ fmt2 (qOf (bounds.getD "depth" (.num 0))) ++ "]"
    else "N/A"
  let directionalInfo := "Created with direction=" ++ quo ++ direction ++ quo
    ++ ", origin_mode=" ++ quo ++ origin_mode ++ quo ++ ". "
  compTypeMsg ++ " (ID: " ++ pyStr (result.getD "id" .null) ++ ") created. "
    ++ directionalInfo ++ "Actual center: " ++ pyStr actualCenter
    ++ ", Dimensions (W,H,D): " ++ dimsStr ++ ". "
    ++ pyStr (result.getD "positioning_explanation" (.str ""))

/-- The uniform exception-path payload of the verbose tools:
`json.dumps({"message": ..., "error": True, "details": None})`. -/
def excJson (message : String) : ToolValue :=
  .jsonVal (.obj [("message", .str message), ("error", .bool true), ("details", .null)])

/-- The `create_component` tool (lines 402-553): normalize dimensions,
validate `direction` and `origin_mode` (a `ValueError` lands in the same
`except` as connection and call failures), then send
`create_component_with_verification` and wrap the result; every path
returns `json.dumps` of a dict. -/
def create_component (ty : String) (position : Option (List ℚ))
    (dimensions : Option (List ℚ)) (direction origin_mode : String)
    (o : ToolCallOutcome) : ToolResult :=
  let dims := normalizeDimensions ty dimensions
  if !valid_directions.contains direction then
    ⟨excJson ("Error creating component: Invalid direction " ++ quo ++ direction ++ quo
      ++ ". Must be one of: " ++ pyListRepr valid_directions), none⟩
  else if !valid_origin_modes.contains origin_mode then
    ⟨excJson ("Error creating component: Invalid origin_mode " ++ quo ++ origin_mode ++ quo
      ++ ". Must be one of: " ++ pyListRepr valid_origin_modes), none⟩
  else
    match o with
    | .connFailed m => ⟨excJson ("Error creating component: " ++ m), none⟩
    | o1 =>
      let sentParams : Json := .obj [("name", .str "create_component_with_verification"),
        ("arguments", .obj [("type", .str ty),
          ("position", jsonOfQList (orDefaultPos position)),
          ("dimensions", jsonOfQList dims),
          ("direction", .str direction),
          ("origin_mode", .str origin_mode)])]
      match o1 with
      | .callRaised m => ⟨excJson ("Error creating component: " ++ m), some sentParams⟩
      | .ok result =>
        if jsonTruthy result && jsonTruthy (result.getD "success" .null) then
          ⟨.jsonVal (.obj [("message",
              .str (createComponentMessage ty direction origin_mode result)),
            ("details", result)]), some sentParams⟩
        else
          ⟨.jsonVal (.obj [("message", .str ("Failed to create component: "
              ++ pyStr (result.getD "error"
                (.str "Unknown error during component creation.")))),
            ("details", result)]), some sentParams⟩
      | .connFailed m => ⟨excJson ("Error creating component: " ++ m), some sentParams⟩

/-- The `transform_component` tool (lines 605-683): connection first, then
argument assembly; with no transformation provided it returns the
`changes_applied: False` success payload without sending anything. -/
def transform_component (id : String) (position rotation scale : Option Json)
    (o : ToolCallOutcome) : ToolResult :=
  match o with
  | .connFailed m =>
    ⟨excJson ("Error transforming component ID " ++ quo ++ id ++ quo ++ ": " ++ m), none⟩
  | o1 =>
    let args : Json := .obj ([("id", .str id)]
      ++ (match position with | some p => [("position", p)] | none => [])
      ++ (match rotation with | some r => [("rotation", r)] | none => [])
      ++ (match scale with | some s => [("scale", s)] | none => []))
    let applied : List String :=
      (match position with | some p => ["position to " ++ pyStr p] | none => [])
      ++ (match rotation with | some r => ["rotation to " ++ pyStr r] | none => [])
      ++ (match scale with | some s => ["scale to " ++ pyStr s] | none => [])
    if applied.isEmpty then
      ⟨.jsonVal (.obj [("message", .str ("No transformation (position, rotation, or scale)"
          ++ " provided. Component not changed.")),
        ("details", .obj [("success", .bool true), ("id", .str id),
          ("changes_applied", .bool false)])]), none⟩
    else
      let sentParams : Json :=
        .obj [("name", .str "transform_component"), ("arguments", args)]
      match o1 with
      | .callRaised m =>
        ⟨excJson ("Error transforming component ID " ++ quo ++ id ++ quo ++ ": " ++ m),
         some sentParams⟩
      | .ok result =>
        if jsonTruthy result && jsonTruthy (result.getD "success" .null) then
          ⟨.jsonVal (.obj [("message", .str ("Component ID " ++ quo ++ id ++ quo
              ++ " transformed successfully: " ++ String.intercalate ", " applied ++ ".")),
            ("details", result)]), some sentParams⟩
        else if jsonTruthy result then
          ⟨.jsonVal (.obj [("message", .str ("Failed to transform component ID " ++ quo
              ++ id ++ quo ++ ". Reason: " ++ pyStr (result.getD "message"
                (.str ("Component ID " ++ quo ++ id ++ quo ++ " not found or transform failed."))))),
            ("details", result)]), some sentParams⟩
        else
          ⟨.jsonVal (.obj [("message", .str ("Received an unexpected or empty response when"
              ++ " trying to transform component ID " ++ quo ++ id ++ quo ++ ".")),
            ("error", .bool true), ("details", .null)]), some sentParams⟩
      | .connFailed m =>
        ⟨excJson ("Error transforming component ID " ++ quo ++ id ++ quo ++ ": " ++ m),
         some sentParams⟩

/-- The `delete_component` tool (lines 555-603): every path returns
`json.dumps` of a dict. -/
def delete_component (id : String) (o : ToolCallOutcome) : ToolValue :=
  match o with
  | .connFailed m | .callRaised m =>
    excJson ("Error deleting component ID " ++ quo ++ id ++ quo ++ ": " ++ m)
  | .ok result =>
    if jsonTruthy result && jsonTruthy (result.getD "success" .null) then
      .jsonVal (.obj [("message", .str ("Component with ID " ++ quo ++ id ++ quo
          ++ " deleted successfully.")), ("details", result)])
    else if jsonTruthy result then
      .jsonVal (.obj [("message", .str ("Failed to delete component with ID " ++ quo
          ++ id ++ quo ++ ". Reason: " ++ pyStr (result.getD "message"
            (.str ("Component ID " ++ quo ++ id ++ quo
              ++ " not found or another error occurred."))))),
        ("details", result)])
    else
      .jsonVal (.obj [("message", .str ("Received an unexpected or empty response when"
          ++ " trying to delete component ID " ++ quo ++ id ++ quo ++ ".")),
        ("error", .bool true), ("details", .null)])

/-- One selected item's description in `get_selection`'s message. -/
def selectionItemDesc (item : Json) : String :=
  pyStr (item.getD "type" (.str "Entity")) ++ " (ID: "
    ++ pyStr (item.getD "id" (.str "Unknown ID")) ++ ")"

/-- The `get_selection` tool (lines 685-735): every path returns
`json.dumps` of a dict. -/
def get_selection (o : ToolCallOutcome) : ToolValue :=
  match o with
  | .connFailed m | .callRaised m => excJson ("Error getting selection: " ++ m)
  | .ok result =>
    if jsonTruthy result && jsonTruthy (result.getD "success" .null) then
      let message :=
        match result.getD "selection" (.arr []) with
        | .arr (i :: is) =>
          "Currently selected components (" ++ toString (i :: is).length ++ "): "
            ++ String.intercalate ", " ((i :: is).map selectionItemDesc) ++ "."
        | _ => "No components are currently selected."
      .jsonVal (.obj [("message", .str message), ("details", result)])
    else if jsonTruthy result then
      .jsonVal (.obj [("message", .str ("Could not retrieve selection. Reason: "
          ++ pyStr (result.getD "message"
            (.str "Failed to retrieve selection from Sketchup.")))),
        ("details", result)])
    else
      .jsonVal (.obj [("message", .str ("Received an unexpected or empty response when"
          ++ " trying to get selection.")), ("error", .bool true), ("details", .null)])

/-- The `set_material` tool (lines 737-788): every path returns `json.dumps`
of a dict. -/
def set_material (id material : String) (o : ToolCallOutcome) : ToolValue :=
  match o with
  | .connFailed m | .callRaised m =>
    excJson ("Error setting material for component ID " ++ quo ++ id ++ quo ++ ": " ++ m)
  | .ok result =>
    if jsonTruthy result && jsonTruthy (result.getD "success" .null) then
      .jsonVal (.obj [("message", .str ("Material for component ID " ++ quo ++ id ++ quo
          ++ " successfully set to " ++ quo ++ material ++ quo ++ ".")),
        ("details", result)])
    else if jsonTruthy result then
      .jsonVal (.obj [("message", .str ("Failed to set material " ++ quo ++ material ++ quo
          ++ " for component ID " ++ quo ++ id ++ quo ++ ". Reason: "
          ++ pyStr (result.getD "message"
            (.str ("Component ID " ++ quo ++ id ++ quo ++ " or material " ++ quo ++ material
              ++ quo ++ " not found, or another error occurred."))))),
        ("details", result)])
    else
      .jsonVal (.obj [("message", .str ("Received an unexpected or empty response when"
          ++ " trying to set material for component ID " ++ quo ++ id ++ quo ++ ".")),
        ("error", .bool true), ("details", .null)])

/-- The `export_scene` tool (lines 790-842): every path returns `json.dumps`
of a dict. -/
def export_scene (format : String) (o : ToolCallOutcome) : ToolValue :=
  match o with
  | .connFailed m | .callRaised m =>
    excJson ("Error exporting scene in " ++ format.toUpper ++ " format: " ++ m)
  | .ok result =>
    if jsonTruthy result && jsonTruthy (result.getD "success" .null) then
      .jsonVal (.obj [("message", .str ("Scene successfully exported in " ++ format.toUpper
          ++ " format. File saved to: "
          ++ pyStr (result.getD "file_path" (.str "An unspecified location by SketchUp"))
          ++ ".")), ("details", result)])
    else if jsonTruthy result then
      .jsonVal (.obj [("message", .str ("Failed to export scene in " ++ format.toUpper
          ++ " format. Reason: " ++ pyStr (result.getD "message"
            (.str ("Export to " ++ format.toUpper ++ " format failed."))))),
        ("details", result)])
    else
      .jsonVal (.obj [("message", .str ("Received an unexpected or empty response when"
          ++ " trying to export scene in " ++ format.toUpper ++ " format.")),
        ("error", .bool true), ("details", .null)])

/-- The `eval_ruby` tool (lines 976-1012): the success path extracts
`result["content"][0]["text"]` when `content` is a nonempty list, otherwise
"Success"; the exception path returns `{"success": False, "error": str(e)}`.
Every path returns `json.dumps` of a dict. -/
def eval_ruby (o : ToolCallOutcome) : ToolValue :=
  match o with
  | .connFailed m | .callRaised m =>
    .jsonVal (.obj [("success", .bool false), ("error", .str m)])
  | .ok result =>
    let res :=
      match result.getD "content" .null with
      | .arr (c :: _) => pyStr (c.getD "text" (.str "Success"))
      | _ => "Success"
    .jsonVal (.obj [("success", .bool true), ("result", .str res)])

/-- The shared shape of the fifteen remaining tools (create_mortise_tenon,
create_dovetail, create_finger_joint, calculate_distance,
measure_components, inspect_component, create_reference_markers,
clear_reference_markers, snap_align_component, create_grid_system,
query_all_components, position_relative_to_component,
position_between_components, show_component_bounds, preview_position):
`return json.dumps(result)` on success, and on any exception
`return f"<prefix>{str(e)}"` — a bare string, not serialized JSON. -/
def simpleTool (pre : String) (o : ToolCallOutcome) : ToolValue :=
  match o with
  | .ok result => .jsonVal result
  | .connFailed m | .callRaised m => .rawStr (pre ++ m)

def create_mortise_tenon : ToolCallOutcome → ToolValue :=
  simpleTool "Error creating mortise and tenon joint: "

def create_dovetail : ToolCallOutcome → ToolValue :=
  simpleTool "Error creating dovetail joint: "

def create_finger_joint : ToolCallOutcome → ToolValue :=
  simpleTool "Error creating finger joint: "

def calculate_distance : ToolCallOutcome → ToolValue :=
  simpleTool "Error calculating distance: "

def measure_components : ToolCallOutcome → ToolValue :=
  simpleTool "Error measuring components: "

def inspect_component : ToolCallOutcome → ToolValue :=
  simpleTool "Error inspecting component: "

def create_reference_markers : ToolCallOutcome → ToolValue :=
  simpleTool "Error creating reference markers: "

def clear_reference_markers : ToolCallOutcome → ToolValue :=
  simpleTool "Error clearing reference markers: "

def snap_align_component : ToolCallOutcome → ToolValue :=
  simpleTool "Error snapping/aligning component: "

def create_grid_system : ToolCallOutcome → ToolValue :=
  simpleTool "Error creating grid system: "

def query_all_components : ToolCallOutcome → ToolValue :=
  simpleTool "Error querying components: "

def position_relative_to_component : ToolCallOutcome → ToolValue :=
  simpleTool "Error positioning component relatively: "

def position_between_components : ToolCallOutcome → ToolValue :=
  simpleTool "Error positioning component between others: "

def show_component_bounds : ToolCallOutcome → ToolValue :=
  simpleTool "Error showing component bounds: "

def preview_position : ToolCallOutcome → ToolValue :=
  simpleTool "Error previewing position: "

/-! ## Claims -/

/-- Claim C4: for every operation name sent through `send_command` (as a
`tools/call` with that name), the selected operation timeout is exactly the
120 s default unless the name is in the static table: 60 s for
`create_component`, 180 s for `boolean_operation` / `create_dovetail` /
`create_mortise_tenon` / `create_finger_joint`, 300 s for `eval_ruby`; no
other name changes the timeout.  (Times in deciseconds.) -/
theorem c4_operation_timeout_table (n : String) (args : Json) :
    operationTimeout "tools/call" (some (.obj [("name", .str n), ("arguments", args)]))
      = (if n = "create_component" then 600
         else if n = "boolean_operation" ∨ n = "create_dovetail"
            ∨ n = "create_mortise_tenon" ∨ n = "create_finger_joint" then 1800
         else if n = "eval_ruby" then 3000
         else 1200) := by
  simp only [operationTimeout, optTruthy, jsonTruthy, Json.getD, Json.get?, jlookup,
    Option.getD, isStrVal]
  norm_num
  split_ifs <;> simp_all

/-- Claim C10: when `transform_component` is called with `position`,
`rotation` and `scale` all `None` and a connection is obtained (so the
underlying interaction, whatever it would have been, is `.ok r` or
`.callRaised m`), it returns the `changes_applied: False` success payload
and passes nothing to `send_command` (`sentParams = none`): the peer and
the pending-request state are untouched. -/
theorem c10_transform_noop_frame (id : String) (r : Json) (m : String) :
    transform_component id none none none (.ok r)
      = ⟨.jsonVal (.obj [("message",
          .str "No transformation (position, rotation, or scale) provided. Component not changed."),
        ("details", .obj [("success", .bool true), ("id", .str id),
          ("changes_applied", .bool false)])]), none⟩
    ∧ transform_component id none none none (.callRaised m)
      = ⟨.jsonVal (.obj [("message",
          .str "No transformation (position, rotation, or scale) provided. Component not changed."),
        ("details", .obj [("success", .bool true), ("id", .str id),
          ("changes_applied", .bool false)])]), none⟩ := by
  constructor <;> rfl

/-- Claim C7 (counterexample): `create_mortise_tenon`'s exception path
returns the bare f-string `"Error creating mortise and tenon joint: boom"`,
not a serialized JSON value with a message and error flag — refuting "every
exposed tool function ... returns a single serialized JSON value". -/
theorem c7_bare_string_cex :
    create_mortise_tenon (.callRaised "boom")
        = .rawStr "Error creating mortise and tenon joint: boom"
    ∧ (create_mortise_tenon (.callRaised "boom")).isJson = false := by
  constructor <;> rfl

/-- Claim C7 (amended): every exposed tool returns a value in every case
(modelled by the totality of the tool functions over all interaction
outcomes) — but only the tools with structured handlers (`create_component`,
`delete_component`, `transform_component`, `get_selection`, `set_material`,
`export_scene`, `eval_ruby`) always return a serialized JSON payload (with
an error flag on their exception paths); the fifteen `simpleTool`-shaped
tools return `json.dumps(result)` on success and a bare error-message
string, not JSON, on any exception. -/
theorem c7_tool_return_shapes :
    (∀ ty pos dims dir om o, ((create_component ty pos dims dir om o).value).isJson = true)
    ∧ (∀ ty pos dims m, (create_component ty pos dims "up" "center" (.callRaised m)).value
        = excJson ("Error creating component: " ++ m))
    ∧ (∀ id o, (delete_component id o).isJson = true)
    ∧ (∀ id p r s o, ((transform_component id p r s o).value).isJson = true)
    ∧ (∀ o, (get_selection o).isJson = true)
    ∧ (∀ id mat o, (set_material id mat o).isJson = true)
    ∧ (∀ f o, (export_scene f o).isJson = true)
    ∧ (∀ o, (eval_ruby o).isJson = true)
    ∧ (∀ p r, simpleTool p (.ok r) = .jsonVal r)
    ∧ (∀ p m, simpleTool p (.connFailed m) = .rawStr (p ++ m)
        ∧ simpleTool p (.callRaised m) = .rawStr (p ++ m)) := by
  refine ⟨?_, ?_, ?_, ?_, ?_, ?_, ?_, ?_, ?_, ?_⟩
  · intro ty pos dims dir om o
    cases o <;> simp [create_component, excJson, ToolValue.isJson] <;>
      split_ifs <;> simp [ToolValue.isJson]
  · intro ty pos dims m; rfl
  · intro id o
    cases o <;> simp [delete_component, excJson, ToolValue.isJson] <;>
      split_ifs <;> simp [ToolValue.isJson]
  · intro id p r s o
    cases o <;> simp [transform_component, excJson, ToolValue.isJson] <;>
      split_ifs <;> simp [ToolValue.isJson]
  · intro o
    cases o <;> simp [get_selection, excJson, ToolValue.isJson] <;>
      split_ifs <;> simp [ToolValue.isJson]
  · intro id mat o
    cases o <;> simp [set_material, excJson, ToolValue.isJson] <;>
      split_ifs <;> simp [ToolValue.isJson]
  · intro f o
    cases o <;> simp [export_scene, excJson, ToolValue.isJson] <;>
      split_ifs <;> simp [ToolValue.isJson]
  · intro o
    cases o <;> simp [eval_ruby, ToolValue.isJson]
  · intro p r; rfl
  · intro p m; exact ⟨rfl, rfl⟩

/-- Claim C9: `create_component` normalizes the `dimensions` argument before
sending: `None` becomes `[1,1,1]`; a 2-element `[d,h]` for type `cylinder`
becomes `[d,d,h]`; any other list shorter than 3 is padded by repeating its
last element (1.0 when empty); every resulting element is clamped to at
least 0.1; and the normalized list is what is forwarded to the peer. -/
theorem c9_dimension_normalization (ty : String) (dims : Option (List ℚ))
    (l : List ℚ) (a b : ℚ) (pos : Option (List ℚ)) (r : Json) :
    normalizeDimensions ty none = [1, 1, 1]
    ∧ normalizeDimensions "cylinder" (some [a, b])
        = [max (1/10) a, max (1/10) a, max (1/10) b]
    ∧ (l.length < 3 → (ty = "cylinder" → l.length ≠ 2) →
        normalizeDimensions ty (some l) = (padTo3 l).map (fun d => max (1/10) d))
    ∧ (∀ x ∈ normalizeDimensions ty dims, (1/10 : ℚ) ≤ x)
    ∧ (create_component ty pos dims "up" "center" (.ok r)).sentParams
        = some (.obj [("name", .str "create_component_with_verification"),
            ("arguments", .obj [("type", .str ty),
              ("position", jsonOfQList (orDefaultPos pos)),
              ("dimensions", jsonOfQList (normalizeDimensions ty dims)),
              ("direction", .str "up"), ("origin_mode", .str "center")])]) := by
  refine ⟨?_, ?_, ?_, ?_, ?_⟩
  · simp [normalizeDimensions]; norm_num
  · rfl
  · intro hlen hcyl
    match l, hlen with
    | [], _ => simp [normalizeDimensions, padTo3, padLoop, padStep]
    | [x], _ => simp [normalizeDimensions, padTo3, padLoop, padStep]
    | [x, y], _ =>
      rcases eq_or_ne ty "cylinder" with hty | hty
      · exact absurd rfl (hcyl hty)
      · simp only [normalizeDimensions]
        split
        · simp_all
        · simp [padTo3, padLoop, padStep]
  · intro x hx
    simp only [normalizeDimensions, List.mem_map] at hx
    obtain ⟨d, _, rfl⟩ := hx
    exact le_max_left _ _
  · simp only [create_component]
    norm_num [valid_directions, valid_origin_modes]
    split_ifs <;> rfl

/-- Claim C9 witness: at `type = "box"`, `dimensions = [5]` the padding
clause applies and yields `[5,5,5]`; every element of a normalized list is
at least 0.1. -/
theorem c9_dimension_normalization_check :
    normalizeDimensions "box" (some [5]) = [5, 5, 5]
    ∧ (∀ x ∈ normalizeDimensions "box" (some [0]), (1/10 : ℚ) ≤ x) := by
  have h := c9_dimension_normalization "box" (some [0]) [5] 1 2 none (.obj [])
  refine ⟨?_, h.2.2.2.1⟩
  have h3 := h.2.2.1 (by norm_num) (by intro hh; simp at hh)
  rw [h3]
  norm_num [padTo3, padLoop, padStep]

/-- Claim C1: in the receive loop, a response carrying a `result` field (and
classified down to the result branch: no `error` field, not a status
notification) terminates the call with that result exactly when its `id`
equals the call's correlation id; with a differing `id` it is ignored and
the loop keeps waiting on the remaining events. -/
theorem c1_result_requires_matching_id (cc : Bool) (rid : Json) (T d e : Nat)
    (j : Json) (rest : List (Nat × RecvOutcome)) (op : Json)
    (hres : j.hasKey "result" = true) (herr : j.hasKey "error" = false)
    (hmeth : isStrVal (j.getD "method" .null) "operation/status" = false)
    (ht : e < T) :
    (Json.pyEq (j.getD "id" .null) rid = true →
      innerLoop cc rid T ((d, .data j) :: rest) e op
        = .success (j.getD "result" (.obj [])))
    ∧ (Json.pyEq (j.getD "id" .null) rid = false →
      innerLoop cc rid T ((d, .data j) :: rest) e op
        = innerLoop cc rid T rest (e + d) op) := by
  constructor <;> intro hid <;>
    simp [innerLoop, Nat.not_le.mpr ht, classifyResponse, herr, hmeth, hres, hid]

/-- Claim C1 witness: with correlation id "42", a result response with id
"99" is ignored and the loop then accepts the following result with id
"42". -/
theorem c1_result_requires_matching_id_check :
    innerLoop false (.str "42") 1200
        [(0, .data (.obj [("result", .obj [("n", .num 1)]), ("id", .str "99")])),
         (0, .data (.obj [("result", .obj [("n", .num 2)]), ("id", .str "42")]))] 0 .null
      = .success (.obj [("n", .num 2)]) := by
  have h1 := (c1_result_requires_matching_id false (.str "42") 1200 0 0
      (.obj [("result", .obj [("n", .num 1)]), ("id", .str "99")])
      [(0, .data (.obj [("result", .obj [("n", .num 2)]), ("id", .str "42")]))] .null
      (by rfl) (by rfl) (by rfl) (by norm_num)).2 (by rfl)
  have h2 := (c1_result_requires_matching_id false (.str "42") 1200 0 0
      (.obj [("result", .obj [("n", .num 2)]), ("id", .str "42")])
      [] .null (by rfl) (by rfl) (by rfl) (by norm_num)).1 (by rfl)
  rw [h1]
  simpa using h2

/-- Claim C2 (counterexample): a peer-reported error whose message contains
the substring "Connection closed" (here `error.message = "Connection
closed"`) is retried by the generic exception handler: the call disconnects,
sleeps 0.5 s, reconnects and resends the request (two `sent` actions in the
trace) — refuting "performs zero retries ... for any peer-reported error". -/
theorem c2_peer_error_retried_cex :
    send_command "tools/call"
        (some (.obj [("name", .str "delete_component"),
          ("arguments", .obj [("id", .str "42")])]))
        (.str "9")
        ⟨true,
         [⟨none, [(0, .data (.obj [("error", .obj [("message", .str "Connection closed")])]))]⟩,
          ⟨none, [(0, .data (.obj [("error", .obj [("message", .str "boom")])]))]⟩],
         [true]⟩
      = (.commError "Communication error with Sketchup: boom",
         [.sent (buildRequest "tools/call"
            (some (.obj [("name", .str "delete_component"),
              ("arguments", .obj [("id", .str "42")])])) (.str "9")),
          .disconnected, .slept 5, .reconnected true,
          .sent (buildRequest "tools/call"
            (some (.obj [("name", .str "delete_component"),
              ("arguments", .obj [("id", .str "42")])])) (.str "9"))]) := by
  rfl

/-- Claim C2 (amended): a peer response carrying an `error` field makes the
call fail with the peer's error message and perform zero retries (one
request written, no disconnect/sleep/resend) — unless the error message
contains the substring "Connection closed", in which case the generic
handler's reconnect-and-resend path runs (see the counterexample). -/
theorem c2_peer_error_no_retry (method : String) (params : Option Json) (rid : Json)
    (j e : Json) (d : Nat) (restEv : List (Nat × RecvOutcome))
    (restAtt : List AttemptScript) (recon : List Bool)
    (hk : j.hasKey "error" = true)
    (he : j.getD "error" .null = e)
    (hm : strContainsSub (errMsg e) "Connection closed" = false) :
    send_command method params rid ⟨true, ⟨none, (d, .data j) :: restEv⟩ :: restAtt, recon⟩
      = (.commError ("Communication error with Sketchup: " ++ errMsg e),
         [.sent (buildRequest method params rid)]) := by
  have hT := operationTimeout_pos method params
  simp [send_command, sendLoop, innerLoop, Nat.not_le.mpr hT, classifyResponse, hk, he, hm]

/-- Claim C2 witness: the spec's own example — a peer error with message
"boom" fails the call with that message after a single request, with no
retry actions in the trace. -/
theorem c2_peer_error_no_retry_check :
    send_command "tools/call"
        (some (.obj [("name", .str "get_selection"), ("arguments", .obj [])]))
        (.str "1")
        ⟨true, [⟨none, [(0, .data (.obj [("error", .obj [("message", .str "boom")])]))]⟩], []⟩
      = (.commError "Communication error with Sketchup: boom",
         [.sent (buildRequest "tools/call"
            (some (.obj [("name", .str "get_selection"), ("arguments", .obj [])]))
            (.str "1"))]) := by
  have h := c2_peer_error_no_retry "tools/call"
      (some (.obj [("name", .str "get_selection"), ("arguments", .obj [])])) (.str "1")
      (.obj [("error", .obj [("message", .str "boom")])]) (.obj [("message", .str "boom")])
      0 [] [] [] (by rfl) (by rfl) (by rfl)
  exact h.trans (by rfl)

/-- Claim C3: transport-level failures surfacing in an attempt (modelled by
the `ConnectionError` family raised during receive) are retried at most 3
times (4 attempts in total); before retry `n` the engine disconnects and
sleeps `min(n * 0.5 s, 2.0 s)` (5, 10, 15 deciseconds — so at least 0.5 s,
then at least 1.0 s), reconnects and resends the identical envelope
`buildRequest method params rid` with the same correlation id; exhausting
the retries fails the call terminally, and further scripted attempts are
never consumed.  The second conjunct is the recovery scenario: failures on
the first two attempts, success on the third, with backoff 0.5 s then
1.0 s. -/
theorem c3_transport_retry_backoff (method : String) (params : Option Json) (rid : Json)
    (m1 m2 m3 m4 : String) (d1 d2 d3 d4 : Nat)
    (extra : List AttemptScript) (rextra : List Bool) :
    send_command method params rid
        ⟨true,
         [⟨none, [(d1, .connError m1)]⟩, ⟨none, [(d2, .connError m2)]⟩,
          ⟨none, [(d3, .connError m3)]⟩, ⟨none, [(d4, .connError m4)]⟩] ++ extra,
         [true, true, true] ++ rextra⟩
      = (.transportExhausted ("Connection to Sketchup lost after 4 attempts: " ++ m4),
         [.sent (buildRequest method params rid), .disconnected, .slept 5, .reconnected true,
          .sent (buildRequest method params rid), .disconnected, .slept 10, .reconnected true,
          .sent (buildRequest method params rid), .disconnected, .slept 15, .reconnected true,
          .sent (buildRequest method params rid)])
    ∧ send_command method params rid
        ⟨true,
         [⟨none, [(d1, .connError m1)]⟩, ⟨none, [(d2, .connError m2)]⟩,
          ⟨none, [(0, .data (.obj [("result", .obj [("success", .bool true)]),
            ("id", rid)]))]⟩] ++ extra,
         [true, true] ++ rextra⟩
      = (.success (.obj [("success", .bool true)]),
         [.sent (buildRequest method params rid), .disconnected, .slept 5, .reconnected true,
          .sent (buildRequest method params rid), .disconnected, .slept 10, .reconnected true,
          .sent (buildRequest method params rid)]) := by
  have hT := operationTimeout_pos method params
  constructor <;>
    simp [send_command, sendLoop, innerLoop, Nat.not_le.mpr hT, classifyResponse,
      Json.hasKey, Json.getD, Json.get?, jlookup, Json.pyEq_refl, errMsg, isStrVal]

/-- Claim C5 (counterexample): the ceiling-reached-without-a-parse framing
failure is NOT retried.  With oracles agreeing with `json.loads` on the
bytes involved, a receive that buffers `"00"` (never a parseable document)
and then hits the 120 s ceiling raises `Incomplete JSON response received`;
fed that exception on its first attempt, `send_command` terminates at once
with a communication error after a single request — even though retries and
a successful second attempt were available — refuting "every framing
failure ... triggers the disconnect/backoff/reconnect/resend path". -/
theorem c5_framing_failure_not_retried_cex :
    receive_full_response asciiBytes jsonUIntBytes
        [(0, .chunk [48, 48]), (1200, .timeout)] [] 0 = .error .incompleteJson
    ∧ RecvError.incompleteJson.toOutcome = .exc "Incomplete JSON response received"
    ∧ send_command "tools/call"
        (some (.obj [("name", .str "get_selection"), ("arguments", .obj [])]))
        (.str "7")
        ⟨true,
         [⟨none, [(0, .exc "Incomplete JSON response received")]⟩,
          ⟨none, [(0, .data (.obj [("result", .obj [("success", .bool true)]),
            ("id", .str "7")]))]⟩],
         [true, true, true]⟩
      = (.commError "Communication error with Sketchup: Incomplete JSON response received",
         [.sent (buildRequest "tools/call"
            (some (.obj [("name", .str "get_selection"), ("arguments", .obj [])]))
            (.str "7"))]) := by
  refine ⟨by rfl, by rfl, by rfl⟩

/-- Claim C5 (amended): the framing failures split.  Peer-closed-before-any-
byte raises `Connection closed before receiving any data`, which the generic
handler does retry (disconnect, fixed 0.5 s sleep, reconnect, resend, here
succeeding on the second attempt); the no-data timeout (`No data received`)
and invalid-UTF-8 (`Invalid response encoding`) failures — like the
incomplete-document failure of the counterexample — terminate the call on
the first occurrence with no retry. -/
theorem c5_framing_failure_split :
    receive_full_response asciiBytes jsonUIntBytes [(0, .chunk [])] [] 0
        = .error .connClosedNoData
    ∧ RecvError.connClosedNoData.toOutcome
        = .exc "Connection closed before receiving any data"
    ∧ send_command "tools/call"
        (some (.obj [("name", .str "get_selection"), ("arguments", .obj [])]))
        (.str "7")
        ⟨true,
         [⟨none, [(0, .exc "Connection closed before receiving any data")]⟩,
          ⟨none, [(0, .data (.obj [("result", .obj [("success", .bool true)]),
            ("id", .str "7")]))]⟩],
         [true]⟩
      = (.success (.obj [("success", .bool true)]),
         [.sent (buildRequest "tools/call"
            (some (.obj [("name", .str "get_selection"), ("arguments", .obj [])]))
            (.str "7")),
          .disconnected, .slept 5, .reconnected true,
          .sent (buildRequest "tools/call"
            (some (.obj [("name", .str "get_selection"), ("arguments", .obj [])]))
            (.str "7"))])
    ∧ receive_full_response asciiBytes jsonUIntBytes [(1200, .timeout)] [] 0
        = .error .noData
    ∧ RecvError.noData.toOutcome = .exc "No data received"
    ∧ send_command "tools/call"
        (some (.obj [("name", .str "get_selection"), ("arguments", .obj [])]))
        (.str "7")
        ⟨true,
         [⟨none, [(0, .exc "No data received")]⟩,
          ⟨none, [(0, .data (.obj [("result", .obj [("success", .bool true)]),
            ("id", .str "7")]))]⟩],
         [true, true, true]⟩
      = (.commError "Communication error with Sketchup: No data received",
         [.sent (buildRequest "tools/call"
            (some (.obj [("name", .str "get_selection"), ("arguments", .obj [])]))
            (.str "7"))])
    ∧ receive_full_response asciiBytes jsonUIntBytes
        [(0, .chunk [255]), (1200, .timeout)] [] 0 = .error .invalidEncoding
    ∧ RecvError.invalidEncoding.toOutcome = .exc "Invalid response encoding"
    ∧ send_command "tools/call"
        (some (.obj [("name", .str "get_selection"), ("arguments", .obj [])]))
        (.str "7")
        ⟨true,
         [⟨none, [(0, .exc "Invalid response encoding")]⟩,
          ⟨none, [(0, .data (.obj [("result", .obj [("success", .bool true)]),
            ("id", .str "7")]))]⟩],
         [true, true, true]⟩
      = (.commError "Communication error with Sketchup: Invalid response encoding",
         [.sent (buildRequest "tools/call"
            (some (.obj [("name", .str "get_selection"), ("arguments", .obj [])]))
            (.str "7"))]) := by
  refine ⟨by rfl, by rfl, by rfl, by rfl, by rfl, by rfl, by rfl, by rfl, by rfl⟩

/-- Unfolding lemma: `isStrVal` on an actual string value compares the strings. -/
theorem isStrVal_str (t s : String) : isStrVal (.str t) s = decide (t = s) := rfl

/-- Helper for claim C6: the inner receive loop passes over any run of
`operation/status` notifications with status "running" (updating only the
`operation_id` state) and then accepts the final matching result, provided
the accumulated receive time stays under the operation timeout. -/
theorem innerLoop_skips_running (cc : Bool) (rid : Json) (T : Nat) (d : Nat) (jf : Json)
    (hres : jf.hasKey "result" = true) (herr : jf.hasKey "error" = false)
    (hmeth : isStrVal (jf.getD "method" .null) "operation/status" = false)
    (hid : Json.pyEq (jf.getD "id" .null) rid = true) :
    ∀ (evs : List (Nat × RecvOutcome)) (e : Nat) (op : Json),
      (∀ p ∈ evs, ∃ j, p.2 = RecvOutcome.data j ∧ j.hasKey "error" = false
          ∧ isStrVal (j.getD "method" .null) "operation/status" = true
          ∧ (j.getD "params" (.obj [])).getD "status" .null = .str "running") →
      e + (evs.map Prod.fst).sum < T →
      innerLoop cc rid T (evs ++ [(d, .data jf)]) e op
        = .success (jf.getD "result" (.obj [])) := by
  intro evs
  induction evs with
  | nil =>
    intro e op _ ht
    simp only [List.map_nil, List.sum_nil, Nat.add_zero] at ht
    simp [innerLoop, Nat.not_le.mpr ht, classifyResponse, herr, hmeth, hres, hid]
  | cons hd tl ih =>
    intro e op hrun ht
    obtain ⟨j0, ho, he0, hm0, hst0⟩ := hrun hd (by simp)
    obtain ⟨d0, o0⟩ := hd
    simp only at ho
    subst ho
    have hlt : e < T := by
      simp only [List.map_cons, List.sum_cons] at ht; omega
    have hstep :
        innerLoop cc rid T ((d0, RecvOutcome.data j0) :: (tl ++ [(d, .data jf)])) e op
          = innerLoop cc rid T (tl ++ [(d, .data jf)]) (e + d0)
              ((j0.getD "params" (.obj [])).getD "operation_id" .null) := by
      simp [innerLoop, Nat.not_le.mpr hlt, classifyResponse, he0, hm0, hst0, isStrVal_str]
    rw [List.cons_append, hstep]
    refine ih (e + d0) _ (fun p hp => hrun p (List.mem_cons_of_mem _ hp)) ?_
    simp only [List.map_cons, List.sum_cons] at ht
    omega

/-- Claim C6: a stream of interim `operation/status` notifications with
status "running", followed by a final result whose `id` matches the call's
correlation id, never terminates the call early: `send_command` keeps
waiting through every "running" notification and returns the eventual
matching final result. -/
theorem c6_running_status_not_terminal (method : String) (params : Option Json)
    (rid : Json) (evs : List (Nat × RecvOutcome)) (d : Nat) (jf : Json)
    (hrun : ∀ p ∈ evs, ∃ j, p.2 = RecvOutcome.data j ∧ j.hasKey "error" = false
        ∧ isStrVal (j.getD "method" .null) "operation/status" = true
        ∧ (j.getD "params" (.obj [])).getD "status" .null = .str "running")
    (htime : (evs.map Prod.fst).sum < operationTimeout method params)
    (hres : jf.hasKey "result" = true) (herr : jf.hasKey "error" = false)
    (hmeth : isStrVal (jf.getD "method" .null) "operation/status" = false)
    (hid : Json.pyEq (jf.getD "id" .null) rid = true) :
    send_command method params rid ⟨true, [⟨none, evs ++ [(d, .data jf)]⟩], []⟩
      = (.success (jf.getD "result" (.obj [])),
         [.sent (buildRequest method params rid)]) := by
  have hinner := innerLoop_skips_running (isCreateComponentCall method params) rid
      (operationTimeout method params) d jf hres herr hmeth hid evs 0 .null hrun
      (by simpa using htime)
  simp [send_command, sendLoop, hinner]

/-- Claim C6 witness: two "running" notifications followed by the matching
final result; the call returns the final result after one request. -/
theorem c6_running_status_not_terminal_check :
    send_command "tools/call"
        (some (.obj [("name", .str "boolean_operation"), ("arguments", .obj [])]))
        (.str "5")
        ⟨true,
         [⟨none,
           [(10, .data (.obj [("method", .str "operation/status"),
              ("params", .obj [("operation_id", .str "op1"), ("status", .str "running"),
                ("message", .str "working")])])),
            (20, .data (.obj [("method", .str "operation/status"),
              ("params", .obj [("operation_id", .str "op1"), ("status", .str "running"),
                ("message", .str "still working")])])),
            (0, .data (.obj [("result", .obj [("done", .bool true)]), ("id", .str "5")]))]⟩],
         []⟩
      = (.success (.obj [("done", .bool true)]),
         [.sent (buildRequest "tools/call"
            (some (.obj [("name", .str "boolean_operation"), ("arguments", .obj [])]))
            (.str "5"))]) := by
  have h := c6_running_status_not_terminal "tools/call"
      (some (.obj [("name", .str "boolean_operation"), ("arguments", .obj [])]))
      (.str "5")
      [(10, .data (.obj [("method", .str "operation/status"),
          ("params", .obj [("operation_id", .str "op1"), ("status", .str "running"),
            ("message", .str "working")])])),
       (20, .data (.obj [("method", .str "operation/status"),
          ("params", .obj [("operation_id", .str "op1"), ("status", .str "running"),
            ("message", .str "still working")])]))]
      0 (.obj [("result", .obj [("done", .bool true)]), ("id", .str "5")])
      (by
        intro p hp
        simp only [List.mem_cons, List.not_mem_nil, or_false] at hp
        rcases hp with h1 | h1 <;> subst h1 <;> exact ⟨_, rfl, rfl, rfl, rfl⟩)
      (by decide) (by rfl) (by rfl) (by rfl) (by rfl)
  exact h.trans (by rfl)


/-- Claim C8 (counterexample): chunk-boundary invariance fails when a proper
prefix of the document already parses.  The byte string "12" (bytes
`[49, 50]`, a complete JSON number; the oracles agree with the UTF-8
decoder and `json.loads` on every byte string involved) returns "12" when
delivered whole, but delivered as "1" then "2" the routine returns "1"
after the first chunk — different returned bytes for the same logical
document. -/
theorem c8_chunk_boundary_cex :
    receive_full_response asciiBytes jsonUIntBytes [(0, .chunk [49, 50])] [] 0
        = .ok [49, 50]
    ∧ receive_full_response asciiBytes jsonUIntBytes
        [(0, .chunk [49]), (0, .chunk [50])] [] 0 = .ok [49]
    ∧ ([49] : List Nat) ≠ [49, 50] := by
  refine ⟨by rfl, by rfl, by decide⟩

/-- Helper for claim C8: running the chunked receive loop over nonempty
chunks whose concatenation parses, while no intermediate concatenation
parses, returns the full concatenation appended to whatever was already
buffered. -/
theorem recv_chunks_aux (u jk : List Nat → Bool) :
    ∀ (evs : List (Nat × List Nat)) (acc : List (List Nat)) (e : Nat),
      evs ≠ [] →
      (∀ p ∈ evs, p.2 ≠ ([] : List Nat)) →
      e + (evs.map Prod.fst).sum < 1200 →
      u (acc.flatten ++ (evs.map Prod.snd).flatten) = true →
      jk (acc.flatten ++ (evs.map Prod.snd).flatten) = true →
      (∀ k, 0 < k → k < evs.length →
        ¬(u (acc.flatten ++ ((evs.map Prod.snd).take k).flatten) = true
          ∧ jk (acc.flatten ++ ((evs.map Prod.snd).take k).flatten) = true)) →
      receive_full_response u jk (evs.map (fun p => (p.1, SockEvent.chunk p.2))) acc e
        = .ok (acc.flatten ++ (evs.map Prod.snd).flatten) := by
  intro evs
  induction evs with
  | nil => intro acc e hne; exact absurd rfl hne
  | cons hd tl ih =>
    intro acc e _ hb ht hu hj hpre
    obtain ⟨d0, b0⟩ := hd
    have hlt : e < 1200 := by
      simp only [List.map_cons, List.sum_cons] at ht; omega
    have hb0 : b0.isEmpty = false := by
      have h0 := hb (d0, b0) (by simp)
      simpa [List.isEmpty_iff] using h0
    rcases eq_or_ne tl [] with htl | htl
    · subst htl
      have hu1 : u (acc.flatten ++ b0) = true := by simpa using hu
      have hj1 : jk (acc.flatten ++ b0) = true := by simpa using hj
      simp [receive_full_response, Nat.not_le.mpr hlt, hb0, hu1, hj1]
    · -- the concatenation up to the first chunk only must not parse yet
      have hpre1 := hpre 1 (by norm_num)
        (by simpa using List.length_pos.mpr htl)
      have hnp : (u (acc.flatten ++ b0) && jk (acc.flatten ++ b0)) = false := by
        by_contra hcon
        rw [Bool.not_eq_false, Bool.and_eq_true] at hcon
        exact hpre1 (by simpa using hcon)
      have step :
          receive_full_response u jk
              (((d0, b0) :: tl).map (fun p => (p.1, SockEvent.chunk p.2))) acc e
            = receive_full_response u jk (tl.map (fun p => (p.1, SockEvent.chunk p.2)))
                (acc ++ [b0]) (e + d0) := by
        simp [receive_full_response, Nat.not_le.mpr hlt, hb0, hnp]
      rw [step]
      have hrec := ih (acc ++ [b0]) (e + d0) htl
        (fun p hp => hb p (List.mem_cons_of_mem _ hp))
        (by simp only [List.map_cons, List.sum_cons] at ht; omega)
        (by simpa [List.append_assoc] using hu)
        (by simpa [List.append_assoc] using hj)
        (by
          intro k hk0 hklen
          have hp2 := hpre (k + 1) (by omega) (by simpa using Nat.succ_lt_succ hklen)
          simpa [List.take_succ_cons, List.append_assoc] using hp2)
      rw [hrec]
      simp [List.append_assoc]

/-- Claim C8 (amended): the framed receive is invariant under chunk
boundaries provided no proper nonempty chunk-boundary prefix of the
document itself decodes and parses: any admissible chunking of a byte
string `B` that decodes as UTF-8 and parses as one complete JSON document
(delivered within the receive ceiling) returns exactly `.ok B`, hence any
two such chunkings yield the same returned bytes.  Without the
prefix-freeness proviso the routine returns the first parseable prefix
(see the counterexample). -/
theorem c8_chunk_invariance_amended (u jk : List Nat → Bool)
    (evs : List (Nat × List Nat))
    (hne : evs ≠ [])
    (hb : ∀ p ∈ evs, p.2 ≠ ([] : List Nat))
    (ht : (evs.map Prod.fst).sum < 1200)
    (hu : u (evs.map Prod.snd).flatten = true)
    (hj : jk (evs.map Prod.snd).flatten = true)
    (hpre : ∀ k, 0 < k → k < evs.length →
      ¬(u ((evs.map Prod.snd).take k).flatten = true
        ∧ jk ((evs.map Prod.snd).take k).flatten = true)) :
    receive_full_response u jk (evs.map (fun p => (p.1, SockEvent.chunk p.2))) [] 0
      = .ok (evs.map Prod.snd).flatten := by
  have h := recv_chunks_aux u jk evs [] 0 hne hb (by simpa using ht)
    (by simpa using hu) (by simpa using hj) (by simpa using hpre)
  simpa using h

/-- Claim C8 witness: the document "[]" (bytes `[91, 93]`; no proper prefix
is a complete JSON document) delivered in two chunks returns the full
document's bytes. -/
theorem c8_chunk_invariance_check :
    receive_full_response asciiBytes jsonEmptyArrBytes
        [(0, .chunk [91]), (0, .chunk [93])] [] 0 = .ok [91, 93] := by
  have h := c8_chunk_invariance_amended asciiBytes jsonEmptyArrBytes
      [(0, [91]), (0, [93])] (by decide) (by decide) (by decide) (by rfl) (by rfl)
      (by
        intro k hk0 hk2
        have hk : k = 1 := by simp at hk2; omega
        subst hk
        decide)
  simpa using h
